import Mathlib

/-!
Shallow embedding of the product-service authentication layer
(`src/main.py`, `src/models.py`): JWT-style token codec, bearer-header
authentication, role gating, token issuance and the product store.

Time is modelled as an integer number of seconds (`Int`); `timedelta(minutes=m)`
becomes `60 * m`.  The JWT wire format is abstracted: a compact token string is
interpreted through a deserialization map `wire : String → Token`, where
`Token` records the claim set, the expiry, the key the token was signed with
and the algorithm name, or marks the string as malformed.
-/

deriving instance DecidableEq for Except

namespace ProductService

/-- Settings from `main.py`: the process-wide signing secret. -/
def SECRET_KEY : String := "CHANGE_THIS_SECRET_KEY"

/-- Settings from `main.py`: the fixed signing algorithm. -/
def ALGORITHM : String := "HS256"

/-- Settings from `main.py`: default token lifetime in minutes. -/
def ACCESS_TOKEN_EXPIRE_MINUTES : Int := 15

/-- A row of the `users` table (`models.py`). -/
structure User where
  id : Nat
  username : String
  role : String
  hashed_password : Option String
  api_token_hash : Option String
  token_expires_at : Option Int
  is_active : Bool
deriving DecidableEq, Repr

/-- A row of the `products` table (`models.py`). -/
structure Product where
  id : Nat
  name : String
  description : Option String
  price : Option Rat
deriving DecidableEq, Repr

/-- The user directory (`db.query(User).filter(User.username == u).first()`),
keyed by the unique `username` column. -/
abbrev Directory : Type := String → Option User

/-- The claim dictionary handed to `jwt.encode` before `exp` is added:
`{"sub": ..., "role": ...}`. -/
structure TokenData where
  sub : Option String
  role : Option String
deriving DecidableEq, Repr

/-- An interpreted compact token string: either a well-formed signed token
carrying a claim set, an optional expiry, the signing key and the algorithm
name, or a string that does not parse as a token at all. -/
inductive Token where
  | signed (data : TokenData) (exp : Option Int) (secret : String) (alg : String)
  | malformed
deriving DecidableEq, Repr

/-- The decoded claim set returned by `jwt.decode`. -/
structure Payload where
  sub : Option String
  role : Option String
  exp : Option Int
deriving DecidableEq, Repr

/-- `not payload` in Python is true for the empty dict as well as for `None`;
a payload with none of the three claims set models the empty dict. -/
def Payload.isEmpty (p : Payload) : Prop :=
  p.sub = none ∧ p.role = none ∧ p.exp = none

instance (p : Payload) : Decidable p.isEmpty := by
  unfold Payload.isEmpty; infer_instance

/-- `create_access_token` (`main.py` lines 38-43): copies the claim data, sets
`exp = utcnow() + timedelta(minutes=expires_minutes)` and signs with the
process secret under the fixed algorithm. -/
def create_access_token (data : TokenData) (now : Int) (expires_minutes : Int) : Token :=
  Token.signed data (some (now + 60 * expires_minutes)) SECRET_KEY ALGORITHM

/-- `decode_token` (`main.py` lines 46-51): `jwt.decode(token, SECRET_KEY,
algorithms=[ALGORITHM])`, returning `None` on any `PyJWTError` — signature
mismatch, wrong algorithm, malformed token, or an `exp` claim that is not in
the future. -/
def decode_token (now : Int) : Token → Option Payload
  | Token.malformed => none
  | Token.signed data exp secret alg =>
      if secret = SECRET_KEY ∧ alg = ALGORITHM ∧ (∀ e ∈ exp, now < e) then
        some ⟨data.sub, data.role, exp⟩
      else
        none

/-- `raise HTTPException(status, detail)`: every error response of the service
is a status code plus a detail message. -/
structure HTTPException where
  status : Nat
  detail : String
deriving DecidableEq, Repr

/-- Python's `authorization.partition(" ")`, restricted to the two components
the code uses: the text before the first space and the text after it (both the
second component of a space-free string and the third component of Python's
triple are empty, so collapsing them is faithful to how `scheme` and `token`
are consumed). -/
def partitionAux : List Char → List Char × List Char
  | [] => ([], [])
  | c :: cs =>
      if c = ' ' then ([], cs)
      else
        let r := partitionAux cs
        (c :: r.1, r.2)

/-- Split a header value at its first space into `(scheme, token)`. -/
def partition_space (s : String) : String × String :=
  let r := partitionAux s.data
  (⟨r.1⟩, ⟨r.2⟩)

/-- Python's `str.lower()` on the scheme: lowercase each character. -/
def lower (s : String) : String := ⟨s.data.map Char.toLower⟩

/-- `get_current_user` (`main.py` lines 57-77): the authentication dependency.
Rejects a missing/empty header (401), a non-bearer scheme or missing token
segment (401), an undecodable or falsy payload (401), a falsy `sub` claim
(401) and an unknown subject (401); otherwise returns the current directory
record for the subject. -/
def get_current_user (wire : String → Token) (db : Directory) (now : Int)
    (authorization : Option String) : Except HTTPException User :=
  match authorization with
  | none => Except.error ⟨401, "Missing Authorization header"⟩
  | some auth =>
      if auth = "" then Except.error ⟨401, "Missing Authorization header"⟩
      else
        let scheme := (partition_space auth).1
        let token := (partition_space auth).2
        if lower scheme ≠ "bearer" ∨ token = "" then
          Except.error ⟨401, "Invalid Authorization header format"⟩
        else
          match decode_token now (wire token) with
          | none => Except.error ⟨401, "Invalid or expired token"⟩
          | some payload =>
              if payload.isEmpty then Except.error ⟨401, "Invalid or expired token"⟩
              else
                match payload.sub with
                | none => Except.error ⟨401, "Invalid token payload"⟩
                | some username =>
                    if username = "" then Except.error ⟨401, "Invalid token payload"⟩
                    else
                      match db username with
                      | none => Except.error ⟨401, "User not found"⟩
                      | some user => Except.ok user

/-- `require_roles` (`main.py` lines 80-85): the checker raises 403 when the
authenticated user's current role is not among the declared roles, and
otherwise passes the user through. -/
def require_roles (roles : List String) (user : User) : Except HTTPException User :=
  if user.role ∈ roles then Except.ok user
  else Except.error ⟨403, "403 Forbidden"⟩

/-- The `/token` request body (`TokenRequest` in `main.py`): `expires_minutes`
is optional; `none` models an absent or null field. -/
structure TokenRequest where
  username : String
  expires_minutes : Option Int
deriving DecidableEq, Repr

/-- The `/token` response body (`TokenResponse` in `main.py`). -/
structure TokenResponse where
  access_token : Token
  token_type : String
  role : String
  expires_at : Int
deriving DecidableEq, Repr

/-- `create_token` (`main.py` lines 151-174): the issuance endpoint, run after
`get_current_user` has produced `caller`.  Non-admins may only name
themselves (403); the target must exist (404); the token embeds the target's
current `(username, role)`; `request.expires_minutes or 15` falls back to the
default exactly when the field is `None` or `0` (Python falsiness). -/
def create_token (db : Directory) (now : Int) (caller : User)
    (request : TokenRequest) : Except HTTPException TokenResponse :=
  if caller.role ≠ "admin" ∧ caller.username ≠ request.username then
    Except.error ⟨403, "You can create JWT tokens only for your own account."⟩
  else
    match db request.username with
    | none => Except.error ⟨404, "User not found"⟩
    | some user =>
        let em : Int :=
          match request.expires_minutes with
          | none => ACCESS_TOKEN_EXPIRE_MINUTES
          | some m => if m = 0 then ACCESS_TOKEN_EXPIRE_MINUTES else m
        Except.ok
          { access_token := create_access_token ⟨some user.username, some user.role⟩ now em
            token_type := "bearer"
            role := user.role
            expires_at := now + 60 * em }

/-- The `/products` POST body (`ProductIn` in `main.py`). -/
structure ProductIn where
  name : String
  description : Option String
  price : Option Rat
deriving DecidableEq, Repr

/-- The autoincrement primary key the database assigns to a freshly inserted
product row: one more than the largest id in the store. -/
def next_id (db : List Product) : Nat :=
  (db.map Product.id).foldr max 0 + 1

/-- `add_product` (`main.py` lines 180-194): rejects a duplicate name with 409
and leaves the store alone; otherwise commits the new row.  The result pairs
the response with the store after the call. -/
def add_product (db : List Product) (p : ProductIn) :
    Except HTTPException Product × List Product :=
  if db.any (fun q => q.name = p.name) then
    (Except.error ⟨409, "Product name must be unique."⟩, db)
  else
    let product : Product := ⟨next_id db, p.name, p.description, p.price⟩
    (Except.ok product, db ++ [product])

/-- The body of the `/products` GET handler (`main.py` lines 197-205): raises
an `HTTPException` carrying status 200 and a detail message when the store is
empty, and returns the full list otherwise. -/
def get_products (db : List Product) : Except HTTPException (List Product) :=
  if db = [] then Except.error ⟨200, "No products found"⟩
  else Except.ok db

/-- The `/products` GET endpoint: `require_roles("admin", "privileged")`
guards the handler body. -/
def get_products_endpoint (user : User) (db : List Product) :
    Except HTTPException (List Product) :=
  match require_roles ["admin", "privileged"] user with
  | Except.error e => Except.error e
  | Except.ok _ => get_products db

/-! Concrete fixtures used to instantiate the theorems below. -/

/-- A seeded admin user. -/
def alice0 : User := ⟨1, "alice", "admin", none, none, none, true⟩

/-- A seeded privileged user. -/
def bob0 : User := ⟨2, "bob", "privileged", none, none, none, true⟩

/-- A seeded nonadmin user. -/
def carol0 : User := ⟨3, "carol", "nonadmin", none, none, none, true⟩

/-- A deactivated user (`is_active = false`). -/
def dave0 : User := ⟨4, "dave", "nonadmin", none, none, none, false⟩

/-- A concrete user directory holding the four seeded users. -/
def db0 : Directory := fun u =>
  if u = "alice" then some alice0
  else if u = "bob" then some bob0
  else if u = "carol" then some carol0
  else if u = "dave" then some dave0
  else none

/-- A concrete token-string interpretation: `tokA` is a valid token naming
`bob` with the role `nonadmin` frozen inside it (issued before a role
change), `tokD` is a valid token naming the deactivated `dave`, and every
other string is garbage. -/
def wire0 : String → Token := fun s =>
  if s = "tokA" then Token.signed ⟨some "bob", some "nonadmin"⟩ (some 1000) SECRET_KEY ALGORITHM
  else if s = "tokD" then Token.signed ⟨some "dave", some "nonadmin"⟩ (some 1000) SECRET_KEY ALGORITHM
  else Token.malformed

/-- A concrete stored product. -/
def prod0 : Product := ⟨1, "widget", none, none⟩

/-- A concrete one-product store. -/
def store0 : List Product := [prod0]

/-- A request that reuses the stored product's name. -/
def pin0 : ProductIn := ⟨"widget", none, none⟩

/-! Claims. -/

/-- Claim C3: for every user (non-empty username and role) and TTL `t > 0`,
decoding the token produced by `create_access_token` at any time before its
expiry succeeds and returns a claim set whose subject and role are exactly
the encoded ones. -/
theorem decode_encode_roundtrip (u r : String) (hu : u ≠ "") (hr : r ≠ "")
    (t : Int) (ht : 0 < t) (now dnow : Int) (hbefore : dnow < now + 60 * t) :
    decode_token dnow (create_access_token ⟨some u, some r⟩ now t)
      = some ⟨some u, some r, some (now + 60 * t)⟩ := by
  simp [decode_token, create_access_token, Option.mem_def, hbefore]

/-- Claim C3 witness: a concrete roundtrip before expiry. -/
theorem decode_encode_roundtrip_witness :
    decode_token 0 (create_access_token ⟨some "alice", some "admin"⟩ 0 15)
      = some ⟨some "alice", some "admin", some (0 + 60 * 15)⟩ :=
  decode_encode_roundtrip "alice" "admin" (by decide) (by decide) 15 (by decide)
    0 0 (by decide)

/-- Claim C4: `decode_token` returns `none` exactly for the invalid tokens:
malformed strings, a signing key other than the process secret, an algorithm
other than the fixed one, or an `exp` claim that is not in the future; in
particular every token decoded at or after its expiry fails. -/
theorem decode_token_none_iff (now : Int) (tok : Token) :
    decode_token now tok = none ↔
      (tok = Token.malformed ∨
        ∃ data exp secret alg, tok = Token.signed data exp secret alg ∧
          (secret ≠ SECRET_KEY ∨ alg ≠ ALGORITHM ∨ ∃ e, exp = some e ∧ e ≤ now)) := by
  cases tok with
  | malformed => simp [decode_token]
  | signed data exp secret alg =>
      constructor
      · intro h
        refine Or.inr ⟨data, exp, secret, alg, rfl, ?_⟩
        by_contra hc
        push_neg at hc
        obtain ⟨h1, h2, h3⟩ := hc
        have hcond : secret = SECRET_KEY ∧ alg = ALGORITHM ∧ ∀ e ∈ exp, now < e :=
          ⟨h1, h2, fun e he => h3 e (Option.mem_def.mp he)⟩
        simp [decode_token, hcond] at h
        obtain ⟨x, hx, hle⟩ := h
        exact absurd (h3 x hx) (not_lt.mpr hle)
      · rintro (h | ⟨d2, e2, s2, a2, heq, hbad⟩)
        · exact absurd h (by simp)
        · injection heq with hd he hs hA
          subst hd; subst he; subst hs; subst hA
          simp only [decode_token, ite_eq_right_iff]
          rintro ⟨h1, h2, h3⟩
          rcases hbad with hb | hb | ⟨e, hee, hle⟩
          · exact absurd h1 hb
          · exact absurd h2 hb
          · exact absurd (h3 e (Option.mem_def.mpr hee)) (not_lt.mpr hle)

/-- Claim C5: `require_roles` succeeds exactly when the caller's current role
is a member of the declared role list, fails with 403 otherwise, and its
outcome depends only on membership — any two role lists with the same members
produce the same result.  As embedded it is a pure function of its inputs. -/
theorem require_roles_spec (roles : List String) (user : User) :
    (require_roles roles user = Except.ok user ↔ user.role ∈ roles) ∧
    (require_roles roles user = Except.error ⟨403, "403 Forbidden"⟩ ↔ user.role ∉ roles) ∧
    (∀ roles2 : List String, (∀ r, r ∈ roles ↔ r ∈ roles2) →
      require_roles roles user = require_roles roles2 user) := by
  refine ⟨?_, ?_, ?_⟩
  · by_cases h : user.role ∈ roles <;> simp [require_roles, h]
  · by_cases h : user.role ∈ roles <;> simp [require_roles, h]
  · intro roles2 hmem
    unfold require_roles
    by_cases h : user.role ∈ roles
    · rw [if_pos h, if_pos ((hmem _).mp h)]
    · rw [if_neg h, if_neg (fun hc => h ((hmem _).mpr hc))]

/-- Claim C5 witness: a concrete membership success and an order/multiplicity
permutation that leaves the outcome unchanged. -/
theorem require_roles_spec_witness :
    require_roles ["admin"] alice0 = Except.ok alice0 ∧
    require_roles ["admin", "privileged"] alice0
      = require_roles ["privileged", "admin", "admin"] alice0 := by
  constructor
  · exact (require_roles_spec ["admin"] alice0).1.mpr (by decide)
  · refine (require_roles_spec ["admin", "privileged"] alice0).2.2 _ ?_
    intro r
    simp only [List.mem_cons, List.not_mem_nil, or_false]
    tauto

/-- Claim C10: for an authorized caller, the product-listing endpoint answers
an empty store with an error-shaped response carrying status 200 and a detail
message, and a non-empty store with the full product list. -/
theorem get_products_empty_spec (db : List Product) (user : User)
    (hrole : user.role ∈ ["admin", "privileged"]) :
    (db = [] → get_products_endpoint user db = Except.error ⟨200, "No products found"⟩) ∧
    (db ≠ [] → get_products_endpoint user db = Except.ok db) := by
  have hgate : require_roles ["admin", "privileged"] user = Except.ok user := by
    simp [require_roles, hrole]
  constructor <;> intro h <;> simp [get_products_endpoint, hgate, get_products, h]

/-- Claim C10 witness: the admin fixture sees the 200-with-detail response on
the empty store and the product list on a non-empty one. -/
theorem get_products_empty_spec_witness :
    get_products_endpoint alice0 [] = Except.error ⟨200, "No products found"⟩ ∧
    get_products_endpoint alice0 store0 = Except.ok store0 :=
  ⟨(get_products_empty_spec [] alice0 (by decide)).1 rfl,
   (get_products_empty_spec store0 alice0 (by decide)).2 (by decide)⟩

/-- Claim C9: `add_product` preserves name uniqueness — from a store with
pairwise-distinct names it produces a store with pairwise-distinct names —
and a request that reuses an existing name fails with the 409 conflict and
leaves the store unchanged. -/
theorem add_product_preserves_name_unique (db : List Product) (p : ProductIn)
    (h : (db.map Product.name).Nodup) :
    ((add_product db p).2.map Product.name).Nodup ∧
    ((∃ q, q ∈ db ∧ q.name = p.name) →
      (add_product db p).1 = Except.error ⟨409, "Product name must be unique."⟩ ∧
      (add_product db p).2 = db) := by
  by_cases hex : db.any (fun q => q.name = p.name) = true
  · refine ⟨?_, fun _ => ?_⟩
    · simp [add_product, hex, h]
    · simp [add_product, hex]
  · have hnot : p.name ∉ db.map Product.name := by
      simp only [List.any_eq_true, decide_eq_true_eq] at hex
      push_neg at hex
      simp only [List.mem_map]
      rintro ⟨q, hq, hqe⟩
      exact hex q hq hqe
    refine ⟨?_, fun hcon => ?_⟩
    · simp only [add_product, hex, if_false, Bool.false_eq_true]
      simp [List.nodup_append, h, hnot]
    · obtain ⟨q, hq, hqe⟩ := hcon
      exact absurd (List.mem_map.mpr ⟨q, hq, hqe⟩) hnot

/-- Claim C9 witness: inserting a duplicate name into the concrete store is
rejected with 409 and the store is unchanged. -/
theorem add_product_preserves_name_unique_witness :
    (add_product store0 pin0).1 = Except.error ⟨409, "Product name must be unique."⟩ ∧
    (add_product store0 pin0).2 = store0 :=
  (add_product_preserves_name_unique store0 pin0 (by decide)).2 ⟨prod0, by decide⟩

/-- Claim C6 counterexample: the claim says a non-positive requested TTL falls
back to the 15-minute default, but `request.expires_minutes or 15` only
replaces falsy values — a negative TTL of `-5` minutes is used as-is, so the
issued token's `expires_at` is the issuance time plus a negative duration. -/
theorem create_token_negative_ttl_counterexample :
    create_token db0 0 alice0 ⟨"alice", some (-5)⟩
      = Except.ok ⟨Token.signed ⟨some "alice", some "admin"⟩ (some (-300)) SECRET_KEY ALGORITHM,
          "bearer", "admin", -300⟩ ∧
    ((-300 : Int) ≤ 0) :=
  ⟨by decide, by decide⟩

/-- Claim C6 (amended): issuance falls back to the 15-minute default exactly
when the requested TTL is absent or zero; any nonzero requested TTL —
including a negative one — is used as given, so `expires_at` is the issuance
time plus the requested (possibly negative) duration. -/
theorem create_token_ttl_fallback (db : Directory) (now : Int) (caller : User)
    (req : TokenRequest) (resp : TokenResponse)
    (h : create_token db now caller req = Except.ok resp) :
    ((req.expires_minutes = none ∨ req.expires_minutes = some 0) →
      resp.expires_at = now + 60 * ACCESS_TOKEN_EXPIRE_MINUTES) ∧
    (∀ m : Int, req.expires_minutes = some m → m ≠ 0 →
      resp.expires_at = now + 60 * m) := by
  by_cases hgate : caller.role ≠ "admin" ∧ caller.username ≠ req.username
  · rw [create_token, if_pos hgate] at h; cases h
  · rw [create_token, if_neg hgate] at h
    cases hdb : db req.username with
    | none => rw [hdb] at h; cases h
    | some user =>
        rw [hdb] at h
        injection h with hr
        subst hr
        constructor
        · rintro (hm | hm) <;> simp [hm]
        · intro m hm hm0
          simp [hm, hm0]

/-- Claim C6 witness: a requested TTL of zero falls back to the default, so
the concrete response expires 900 seconds after issuance. -/
theorem create_token_ttl_fallback_witness :
    (900 : Int) = 0 + 60 * ACCESS_TOKEN_EXPIRE_MINUTES :=
  (create_token_ttl_fallback db0 0 alice0 ⟨"alice", some 0⟩
      ⟨create_access_token ⟨some "alice", some "admin"⟩ 0 15, "bearer", "admin", 900⟩
      (by decide)).1 (Or.inr rfl)

/-- Claim C1: the delegation rule of the issuance endpoint, for an
authenticated caller (one whose directory record is current): an admin may
request a token for any target and gets 404 exactly when the target is not in
the directory; a non-admin gets 403 whenever the target is not themselves and
succeeds when it is, with the issued role being the target's current role. -/
theorem create_token_delegation (db : Directory) (now : Int) (caller : User)
    (req : TokenRequest) (hc : db caller.username = some caller) :
    (caller.role = "admin" →
      (db req.username = none →
        create_token db now caller req = Except.error ⟨404, "User not found"⟩) ∧
      (∀ target, db req.username = some target →
        ∃ resp, create_token db now caller req = Except.ok resp ∧ resp.role = target.role)) ∧
    (caller.role ≠ "admin" →
      (req.username ≠ caller.username →
        create_token db now caller req
          = Except.error ⟨403, "You can create JWT tokens only for your own account."⟩) ∧
      (req.username = caller.username →
        ∃ resp, create_token db now caller req = Except.ok resp ∧ resp.role = caller.role)) := by
  constructor
  · intro hadmin
    have hgate : ¬(caller.role ≠ "admin" ∧ caller.username ≠ req.username) := by
      simp [hadmin]
    constructor
    · intro hdb
      rw [create_token, if_neg hgate, hdb]
    · intro target hdb
      rw [create_token, if_neg hgate, hdb]
      exact ⟨_, rfl, rfl⟩
  · intro hnadmin
    constructor
    · intro hne
      have hgate : caller.role ≠ "admin" ∧ caller.username ≠ req.username :=
        ⟨hnadmin, fun hx => hne hx.symm⟩
      rw [create_token, if_pos hgate]
    · intro heq
      have hgate : ¬(caller.role ≠ "admin" ∧ caller.username ≠ req.username) :=
        fun hx => hx.2 heq.symm
      have hdb : db req.username = some caller := by rw [heq]; exact hc
      rw [create_token, if_neg hgate, hdb]
      exact ⟨_, rfl, rfl⟩

/-- Claim C1 witness: the admin fixture issues for another existing user and
the embedded role is the target's current role. -/
theorem create_token_delegation_witness :
    ∃ resp, create_token db0 0 alice0 ⟨"bob", none⟩ = Except.ok resp ∧
      resp.role = bob0.role :=
  ((create_token_delegation db0 0 alice0 ⟨"bob", none⟩ (by decide)).1
    (by decide)).2 bob0 (by decide)

/-- Claim C8: authentication never consults `is_active` — over a directory
whose records have their `is_active` flag rewritten to any value, the result
of `get_current_user` is the same up to that rewritten flag (in particular the
accept/reject outcome and every error are identical); concretely, a valid
token for the deactivated fixture `dave0` is still accepted. -/
theorem get_current_user_is_active_independent (wire : String → Token)
    (db : Directory) (now : Int) (auth : Option String) (b : Bool) :
    get_current_user wire (fun u => (db u).map (fun x => { x with is_active := b })) now auth
      = Except.map (fun x : User => { x with is_active := b })
          (get_current_user wire db now auth) ∧
    (get_current_user wire0 db0 0 (some "Bearer tokD") = Except.ok dave0 ∧
      dave0.is_active = false) := by
  refine ⟨?_, by decide, by decide⟩
  rcases auth with _ | a
  · simp [get_current_user, Except.map]
  · by_cases ha : a = ""
    · simp [get_current_user, ha, Except.map]
    · simp only [get_current_user, if_neg ha]
      by_cases hm : lower (partition_space a).1 ≠ "bearer" ∨ (partition_space a).2 = ""
      · simp [hm, Except.map]
      · simp only [if_neg hm]
        cases hdec : decode_token now (wire (partition_space a).2) with
        | none => simp [Except.map]
        | some p =>
            by_cases hemp : p.isEmpty
            · simp [hemp, Except.map]
            · simp only [if_neg hemp]
              cases hsub : p.sub with
              | none => simp [Except.map]
              | some u =>
                  by_cases hu : u = ""
                  · simp [hu, Except.map]
                  · simp only [if_neg hu]
                    cases hdb : db u with
                    | none => simp [Except.map]
                    | some user => simp [Except.map]

/-- Claim C7: the role the authorization gate acts on is the subject's
current directory role, not the role frozen inside the presented token — for
any valid token naming subject `u` with embedded role `rOld`, authentication
returns the current directory record `user`, the gate's decision is membership
of `user.role` (whatever the directory now says), and decoding the same token
still yields the frozen `rOld`. -/
theorem authorization_uses_directory_role (wire : String → Token) (db : Directory)
    (now : Int) (a tok u rOld : String) (e : Int) (user : User) (roles : List String)
    (ha : a ≠ "") (htok : tok ≠ "")
    (h1 : lower (partition_space a).1 = "bearer")
    (h2 : (partition_space a).2 = tok)
    (hw : wire tok = Token.signed ⟨some u, some rOld⟩ (some e) SECRET_KEY ALGORITHM)
    (hu : u ≠ "") (he : now < e) (hdb : db u = some user) :
    get_current_user wire db now (some a) = Except.ok user ∧
    (require_roles roles user = Except.ok user ↔ user.role ∈ roles) ∧
    (decode_token now (wire tok)).map Payload.role = some (some rOld) := by
  have hdec : decode_token now (wire tok) = some ⟨some u, some rOld, some e⟩ := by
    rw [hw]
    simp [decode_token, Option.mem_def, he]
  refine ⟨?_, ?_, ?_⟩
  · simp only [get_current_user, if_neg ha]
    rw [h2]
    have hm : ¬(lower (partition_space a).1 ≠ "bearer" ∨ tok = "") := by
      simp [h1, htok]
    rw [if_neg hm, hdec]
    have hemp : ¬(Payload.isEmpty ⟨some u, some rOld, some e⟩) := by
      simp [Payload.isEmpty]
    simp only [if_neg hemp, if_neg hu, hdb]
  · by_cases hr : user.role ∈ roles <;> simp [require_roles, hr]
  · rw [hdec]
    rfl

/-- Claim C7 witness: `tokA` was issued for `bob` with the old role
`nonadmin`; the directory now says `privileged`, which is what the gate uses,
while the token still decodes to `nonadmin`. -/
theorem authorization_uses_directory_role_witness :
    get_current_user wire0 db0 0 (some "Bearer tokA") = Except.ok bob0 ∧
    (require_roles ["privileged"] bob0 = Except.ok bob0 ↔ bob0.role ∈ ["privileged"]) ∧
    (decode_token 0 (wire0 "tokA")).map Payload.role = some (some "nonadmin") :=
  authorization_uses_directory_role wire0 db0 0 "Bearer tokA" "tokA" "bob" "nonadmin"
    1000 bob0 ["privileged"] (by decide) (by decide) (by decide) (by decide)
    (by decide) (by decide) (by decide) (by decide)

/-- Unfolding of `get_current_user` past the header-presence check. -/
lemma get_current_user_some_ne (wire : String → Token) (db : Directory) (now : Int)
    (a : String) (ha : ¬a = "") :
    get_current_user wire db now (some a) =
      (if lower (partition_space a).1 ≠ "bearer" ∨ (partition_space a).2 = "" then
        Except.error ⟨401, "Invalid Authorization header format"⟩
      else
        match decode_token now (wire (partition_space a).2) with
        | none => Except.error ⟨401, "Invalid or expired token"⟩
        | some payload =>
            if payload.isEmpty then Except.error ⟨401, "Invalid or expired token"⟩
            else
              match payload.sub with
              | none => Except.error ⟨401, "Invalid token payload"⟩
              | some username =>
                  if username = "" then Except.error ⟨401, "Invalid token payload"⟩
                  else
                    match db username with
                    | none => Except.error ⟨401, "User not found"⟩
                    | some user => Except.ok user) := by
  simp only [get_current_user, if_neg ha]

/-- Claim C2: classification of `get_current_user` outcomes, for a directory
with no record under the empty username.  It answers the missing-credentials
401 exactly when the header is absent or empty; the malformed-credentials 401
exactly when, after splitting at the first space, the scheme is not `bearer`
case-insensitively or no token segment follows; an invalid-credentials 401
exactly when the token fails to decode, carries no subject, or names a
subject with no directory record; and otherwise it returns the directory's
record for the subject. -/
theorem get_current_user_spec (wire : String → Token) (db : Directory) (now : Int)
    (auth : Option String) (hdb : db "" = none) :
    (get_current_user wire db now auth = Except.error ⟨401, "Missing Authorization header"⟩
        ↔ (auth = none ∨ auth = some "")) ∧
    (get_current_user wire db now auth
        = Except.error ⟨401, "Invalid Authorization header format"⟩
        ↔ ∃ a, auth = some a ∧ a ≠ "" ∧
            (lower (partition_space a).1 ≠ "bearer" ∨ (partition_space a).2 = "")) ∧
    ((∃ err, get_current_user wire db now auth = Except.error err ∧ err.status = 401 ∧
        (err.detail = "Invalid or expired token" ∨ err.detail = "Invalid token payload" ∨
          err.detail = "User not found"))
        ↔ ∃ a, auth = some a ∧ a ≠ "" ∧
            lower (partition_space a).1 = "bearer" ∧ (partition_space a).2 ≠ "" ∧
            (decode_token now (wire (partition_space a).2) = none ∨
              ∃ p, decode_token now (wire (partition_space a).2) = some p ∧
                (p.sub = none ∨ ∃ u, p.sub = some u ∧ db u = none))) ∧
    (∀ a p u user, auth = some a → a ≠ "" →
        lower (partition_space a).1 = "bearer" → (partition_space a).2 ≠ "" →
        decode_token now (wire (partition_space a).2) = some p →
        p.sub = some u → db u = some user →
        get_current_user wire db now auth = Except.ok user) := by
  rcases auth with _ | a
  · have hr : get_current_user wire db now none
        = Except.error ⟨401, "Missing Authorization header"⟩ := rfl
    refine ⟨by simp [hr], by simp [hr], by simp [hr], ?_⟩
    intro a p u user h
    cases h
  · by_cases ha : a = ""
    · subst ha
      have hr : get_current_user wire db now (some "")
          = Except.error ⟨401, "Missing Authorization header"⟩ := by
        simp [get_current_user]
      refine ⟨by simp [hr], by simp [hr], by simp [hr], ?_⟩
      intro a2 p u user h h2 _ _ _ _ _
      injection h with hh
      subst hh
      exact absurd rfl h2
    · have hstep := get_current_user_some_ne wire db now a ha
      by_cases hm : lower (partition_space a).1 ≠ "bearer" ∨ (partition_space a).2 = ""
      · have hr : get_current_user wire db now (some a)
            = Except.error ⟨401, "Invalid Authorization header format"⟩ := by
          rw [hstep, if_pos hm]
        refine ⟨by simp [hr, ha], by simp [hr, ha, hm], ?_, ?_⟩
        · rw [hr]
          constructor
          · rintro ⟨err, herr, h401, hdet⟩
            injection herr with he
            subst he
            rcases hdet with h | h | h <;> simp at h
          · rintro ⟨a2, ha2, -, hb2, hne2, -⟩
            injection ha2 with hh
            subst hh
            rcases hm with hm | hm
            · exact absurd hb2 hm
            · exact absurd hm hne2
        · intro a2 p u user h h2 h3 h4 _ _ _
          injection h with hh
          subst hh
          rcases hm with hm | hm
          · exact absurd h3 hm
          · exact absurd hm h4
      · push_neg at hm
        obtain ⟨hb, hne⟩ := hm
        have hwf : ¬(lower (partition_space a).1 ≠ "bearer" ∨ (partition_space a).2 = "") := by
          rintro (hx | hx)
          · exact hx hb
          · exact hne hx
        cases hdec : decode_token now (wire (partition_space a).2) with
        | none =>
            have hr : get_current_user wire db now (some a)
                = Except.error ⟨401, "Invalid or expired token"⟩ := by
              rw [hstep, if_neg hwf, hdec]
            refine ⟨by simp [hr, ha], by simp [hr, hb, hne], by simp [hr, ha, hb, hne, hdec], ?_⟩
            intro a2 p u user h _ _ _ h5 _ _
            injection h with hh
            subst hh
            rw [hdec] at h5
            cases h5
        | some p =>
            by_cases hemp : p.isEmpty
            · have hr : get_current_user wire db now (some a)
                  = Except.error ⟨401, "Invalid or expired token"⟩ := by
                rw [hstep, if_neg hwf, hdec]
                simp [hemp]
              obtain ⟨hs, -, -⟩ := hemp
              refine ⟨by simp [hr, ha], by simp [hr, hb, hne],
                by simp [hr, ha, hb, hne, hdec, hs], ?_⟩
              intro a2 p2 u user h _ _ _ h5 h6 _
              injection h with hh
              subst hh
              rw [hdec] at h5
              injection h5 with hp
              subst hp
              rw [hs] at h6
              cases h6
            · cases hsub : p.sub with
              | none =>
                  have hr : get_current_user wire db now (some a)
                      = Except.error ⟨401, "Invalid token payload"⟩ := by
                    rw [hstep, if_neg hwf, hdec]
                    simp [hemp, hsub]
                  refine ⟨by simp [hr, ha], by simp [hr, hb, hne],
                    by simp [hr, ha, hb, hne, hdec, hsub], ?_⟩
                  intro a2 p2 u user h _ _ _ h5 h6 _
                  injection h with hh
                  subst hh
                  rw [hdec] at h5
                  injection h5 with hp
                  subst hp
                  rw [hsub] at h6
                  cases h6
              | some u =>
                  by_cases hu : u = ""
                  · have hr : get_current_user wire db now (some a)
                        = Except.error ⟨401, "Invalid token payload"⟩ := by
                      rw [hstep, if_neg hwf, hdec]
                      simp [hemp, hsub, hu]
                    refine ⟨by simp [hr, ha], by simp [hr, hb, hne],
                      by simp [hr, ha, hb, hne, hdec, hsub, hu, hdb], ?_⟩
                    intro a2 p2 u2 user h _ _ _ h5 h6 h7
                    injection h with hh
                    subst hh
                    rw [hdec] at h5
                    injection h5 with hp
                    subst hp
                    rw [hsub] at h6
                    injection h6 with hh2
                    subst hh2
                    rw [hu] at h7
                    rw [hdb] at h7
                    cases h7
                  · cases hdbu : db u with
                    | none =>
                        have hr : get_current_user wire db now (some a)
                            = Except.error ⟨401, "User not found"⟩ := by
                          rw [hstep, if_neg hwf, hdec]
                          simp [hemp, hsub, hu, hdbu]
                        refine ⟨by simp [hr, ha], by simp [hr, hb, hne],
                          by simp [hr, ha, hb, hne, hdec, hsub, hdbu], ?_⟩
                        intro a2 p2 u2 user h _ _ _ h5 h6 h7
                        injection h with hh
                        subst hh
                        rw [hdec] at h5
                        injection h5 with hp
                        subst hp
                        rw [hsub] at h6
                        injection h6 with hh2
                        subst hh2
                        rw [hdbu] at h7
                        cases h7
                    | some user0 =>
                        have hr : get_current_user wire db now (some a)
                            = Except.ok user0 := by
                          rw [hstep, if_neg hwf, hdec]
                          simp [hemp, hsub, hu, hdbu]
                        refine ⟨by simp [hr, ha], by simp [hr, hb, hne],
                          by simp [hr, ha, hb, hne, hdec, hsub, hdbu], ?_⟩
                        intro a2 p2 u2 user h _ _ _ h5 h6 h7
                        injection h with hh
                        subst hh
                        rw [hdec] at h5
                        injection h5 with hp
                        subst hp
                        rw [hsub] at h6
                        injection h6 with hh2
                        subst hh2
                        rw [hdbu] at h7
                        injection h7 with hu2
                        subst hu2
                        exact hr

/-- Claim C2 witness: the concrete directory has no empty-username record, and
an absent header is rejected with the missing-credentials 401. -/
theorem get_current_user_spec_witness :
    db0 "" = none ∧
    get_current_user wire0 db0 0 none
      = Except.error ⟨401, "Missing Authorization header"⟩ :=
  ⟨by decide,
   (get_current_user_spec wire0 db0 0 none (by decide)).1.mpr (Or.inl rfl)⟩

end ProductService
